import Mathlib

set_option maxRecDepth 20000
set_option exponentiation.threshold 512

/-!
Verification of the natural-language specification of the Ipopt
`OptimalityErrorConvergenceCheck` component against a shallow embedding of
`Ipopt/src/Algorithm/IpOptErrorConvCheck.cpp`.

Real-valued (`Number`) quantities of the C++ code are embedded as rationals,
integer (`Index`) quantities as `Int`, vectors as `List ℚ`.  The member state
of the checker object is the structure `CheckerState`; the readings the
checker takes from its collaborators (`IpData()`, `IpCq()`, `IpNLP()`) during
one `CheckConvergence` call are the structure `IpEnv`.  The intermediate user
callback is represented by its observable effect: the boolean
`IpEnv.request_stop` is the negation of the value the callback returns.
-/

/-- Convergence statuses of `ConvergenceCheck::ConvergenceStatus` as used by
`OptimalityErrorConvergenceCheck::CheckConvergence`. -/
inductive ConvergenceStatus where
  | CONTINUE
  | CONVERGED
  | CONVERGED_TO_ACCEPTABLE_POINT
  | MAXITER_EXCEEDED
  | CPUTIME_EXCEEDED
  | DIVERGING
  | RESTORATION_FAILURE
  | USER_STOP
deriving DecidableEq

/-- Member state of `OptimalityErrorConvergenceCheck` (the fields set by
`InitializeImpl` and mutated by `CheckConvergence` / `CurrentIsAcceptable`). -/
structure CheckerState where
  max_iterations_ : Int
  max_cpu_time_ : ℚ
  dual_inf_tol_ : ℚ
  constr_viol_tol_ : ℚ
  compl_inf_tol_ : ℚ
  acceptable_iter_ : Int
  acceptable_tol_ : ℚ
  acceptable_dual_inf_tol_ : ℚ
  acceptable_constr_viol_tol_ : ℚ
  acceptable_compl_inf_tol_ : ℚ
  acceptable_obj_change_tol_ : ℚ
  diverging_iterates_tol_ : ℚ
  mu_target_ : ℚ
  acceptable_counter_ : Int
  curr_obj_val_ : ℚ
  last_obj_val_ : ℚ
  last_obj_val_iter_ : Int
deriving DecidableEq

/-- The search direction `IpData().delta()`: possibly absent, and its `x` and
`s` components possibly absent.  A present component is embedded as the list
of its entries. -/
structure DeltaPair where
  x : Option (List ℚ)
  s : Option (List ℚ)
deriving DecidableEq

/-- Readings `CheckConvergence` / `CurrentIsAcceptable` take from `IpData()`,
`IpCq()` and `IpNLP()` during one call.  Cached quantities are read at most
once per iterate in the code, so one scalar per quantity is faithful. -/
structure IpEnv where
  iter_count : Int
  curr_nlp_error : ℚ
  unscaled_curr_dual_infeasibility : ℚ
  unscaled_curr_nlp_constraint_violation : ℚ
  unscaled_curr_complementarity : ℚ
  tol : ℚ
  curr_x : List ℚ
  y_c_Dim : Nat
  curr_f : ℚ
  cpu_time_start : ℚ
  curr_cpu_time : ℚ
  delta : Option DeltaPair
  request_stop : Bool
deriving DecidableEq

/-- Max-norm `Vector::Amax()`: the maximum of the absolute values of the
entries (0 for the empty vector). -/
def Amax (v : List ℚ) : ℚ :=
  v.foldl (fun a b => max a |b|) 0

/-- The step-norm diagnostic `dnrm` computed in `CheckConvergence`
(IpOptErrorConvCheck.cpp lines 181-191): if the stored direction and its `x`
and `s` components are all valid, the maximum of their max-norms, otherwise
the sentinel 0. -/
def dnrmOf (delta : Option DeltaPair) : ℚ :=
  match delta with
  | some d =>
      match d.x, d.s with
      | some vx, some vs => max (Amax vx) (Amax vs)
      | _, _ => 0
  | none => 0

/-- Square-problem test `IpData().curr()->x()->Dim() == IpData().curr()->y_c()->Dim()`. -/
def isSquare (env : IpEnv) : Prop :=
  env.curr_x.length = env.y_c_Dim

instance (env : IpEnv) : Decidable (isSquare env) := by
  unfold isSquare; infer_instance

/-- Tolerance relaxation of `CheckConvergence` lines 211-217: in the square
case the primary dual-infeasibility and complementarity tolerances are set
to 1e300. -/
def relaxPrimaryTols (st : CheckerState) (env : IpEnv) : CheckerState :=
  if isSquare env then
    { st with dual_inf_tol_ := 10 ^ 300, compl_inf_tol_ := 10 ^ 300 }
  else st

/-- The primary convergence test of `CheckConvergence` lines 232-234, on the
tolerances held in `st`. -/
def primaryTest (st : CheckerState) (env : IpEnv) : Prop :=
  env.curr_nlp_error ≤ env.tol
    ∧ env.unscaled_curr_dual_infeasibility ≤ st.dual_inf_tol_
    ∧ env.unscaled_curr_nlp_constraint_violation ≤ st.constr_viol_tol_
    ∧ env.unscaled_curr_complementarity ≤ st.compl_inf_tol_

instance (st : CheckerState) (env : IpEnv) : Decidable (primaryTest st env) := by
  unfold primaryTest; infer_instance

/-- Objective-bookkeeping update of `CurrentIsAcceptable` lines 281-289:
when the iteration count differs from the one recorded at the previous
acceptable-test evaluation, shift the stored objective values. -/
def updateObjVals (st : CheckerState) (env : IpEnv) : CheckerState :=
  if env.iter_count ≠ st.last_obj_val_iter_ then
    { st with
        last_obj_val_ := st.curr_obj_val_
        curr_obj_val_ := env.curr_f
        last_obj_val_iter_ := env.iter_count }
  else st

/-- Tolerance relaxation of `CurrentIsAcceptable` lines 301-307: in the
square case the acceptable dual-infeasibility and complementarity tolerances
are set to 1e300. -/
def relaxAcceptableTols (st : CheckerState) (env : IpEnv) : CheckerState :=
  if isSquare env then
    { st with
        acceptable_dual_inf_tol_ := 10 ^ 300
        acceptable_compl_inf_tol_ := 10 ^ 300 }
  else st

/-- The relative objective-change quantity
`fabs(curr_obj_val_ - last_obj_val_) / Max(1., fabs(curr_obj_val_))` of
`CurrentIsAcceptable` line 333. -/
def objChangeQuantity (st : CheckerState) : ℚ :=
  |st.curr_obj_val_ - st.last_obj_val_| / max 1 |st.curr_obj_val_|

/-- The acceptable test `OptimalityErrorConvergenceCheck::CurrentIsAcceptable`
(lines 271-334): returns the test outcome together with the mutated member
state (objective bookkeeping and square-case tolerance relaxation persist in
member variables). -/
def CurrentIsAcceptable (st : CheckerState) (env : IpEnv) : Bool × CheckerState :=
  let st1 := updateObjVals st env
  let st2 := relaxAcceptableTols st1 env
  (decide (env.curr_nlp_error ≤ st2.acceptable_tol_
      ∧ env.unscaled_curr_dual_infeasibility ≤ st2.acceptable_dual_inf_tol_
      ∧ env.unscaled_curr_nlp_constraint_violation ≤ st2.acceptable_constr_viol_tol_
      ∧ env.unscaled_curr_complementarity ≤ st2.acceptable_compl_inf_tol_
      ∧ objChangeQuantity st2 ≤ st2.acceptable_obj_change_tol_), st2)

/-- The short-circuit `acceptable_iter_ > 0 && CurrentIsAcceptable()` of
`CheckConvergence` line 238: `CurrentIsAcceptable` (and its side effects)
only happens when `acceptable_iter_ > 0`. -/
def acceptableStep (st : CheckerState) (env : IpEnv) : Bool × CheckerState :=
  if 0 < st.acceptable_iter_ then CurrentIsAcceptable st env else (false, st)

/-- Tail of `CheckConvergence` (lines 252-268): the diverging-iterates check,
the maximum-iteration check, the guarded CPU-time check, and the default
CONTINUE, in source order. -/
def afterAcceptable (st : CheckerState) (env : IpEnv) : ConvergenceStatus × CheckerState :=
  if st.diverging_iterates_tol_ < Amax env.curr_x then
    (ConvergenceStatus.DIVERGING, st)
  else if st.max_iterations_ ≤ env.iter_count then
    (ConvergenceStatus.MAXITER_EXCEEDED, st)
  else if st.max_cpu_time_ < 999999 ∧ st.max_cpu_time_ < env.curr_cpu_time - env.cpu_time_start then
    (ConvergenceStatus.CPUTIME_EXCEEDED, st)
  else
    (ConvergenceStatus.CONTINUE, st)

/-- Embedding of `OptimalityErrorConvergenceCheck::CheckConvergence`
(IpOptErrorConvCheck.cpp lines 165-269), returning the status together with
the mutated member state. -/
def CheckConvergence (st : CheckerState) (env : IpEnv)
    (call_intermediate_callback : Bool) : ConvergenceStatus × CheckerState :=
  if call_intermediate_callback && env.request_stop then
    (ConvergenceStatus.USER_STOP, st)
  else
    let st1 := relaxPrimaryTols st env
    if primaryTest st1 env then
      (ConvergenceStatus.CONVERGED, st1)
    else
      let ar := acceptableStep st1 env
      if ar.1 then
        let st2 : CheckerState :=
          { ar.2 with acceptable_counter_ := ar.2.acceptable_counter_ + 1 }
        if st2.acceptable_iter_ ≤ st2.acceptable_counter_ then
          (ConvergenceStatus.CONVERGED_TO_ACCEPTABLE_POINT, st2)
        else
          afterAcceptable st2 env
      else
        afterAcceptable { ar.2 with acceptable_counter_ := 0 } env

/-- The option values fetched by `InitializeImpl` from the options list. -/
structure OptionValues where
  max_iter : Int
  max_cpu_time : ℚ
  dual_inf_tol : ℚ
  constr_viol_tol : ℚ
  compl_inf_tol : ℚ
  acceptable_iter : Int
  acceptable_tol : ℚ
  acceptable_dual_inf_tol : ℚ
  acceptable_constr_viol_tol : ℚ
  acceptable_compl_inf_tol : ℚ
  acceptable_obj_change_tol : ℚ
  diverging_iterates_tol : ℚ
  mu_target : ℚ
deriving DecidableEq

/-- Embedding of `OptimalityErrorConvergenceCheck::InitializeImpl`
(lines 140-163): stores the fetched option values and resets
`acceptable_counter_`, `curr_obj_val_` and `last_obj_val_iter_`.  The member
`last_obj_val_` is not assigned there and keeps its previous value. -/
def InitializeImpl (options : OptionValues) (st : CheckerState) : CheckerState :=
  { max_iterations_ := options.max_iter
    max_cpu_time_ := options.max_cpu_time
    dual_inf_tol_ := options.dual_inf_tol
    constr_viol_tol_ := options.constr_viol_tol
    compl_inf_tol_ := options.compl_inf_tol
    acceptable_iter_ := options.acceptable_iter
    acceptable_tol_ := options.acceptable_tol
    acceptable_dual_inf_tol_ := options.acceptable_dual_inf_tol
    acceptable_constr_viol_tol_ := options.acceptable_constr_viol_tol
    acceptable_compl_inf_tol_ := options.acceptable_compl_inf_tol
    acceptable_obj_change_tol_ := options.acceptable_obj_change_tol
    diverging_iterates_tol_ := options.diverging_iterates_tol
    mu_target_ := options.mu_target
    acceptable_counter_ := 0
    curr_obj_val_ := -(10 ^ 50)
    last_obj_val_ := st.last_obj_val_
    last_obj_val_iter_ := -1 }

/-- A lower-bounded real option as registered by
`RegisteredOptions::AddLowerBoundedNumberOption`: a lower bound, whether it
is strict, and a default value; no upper bound is registered. -/
structure LowerBoundedNumberOption where
  lb : ℚ
  strict : Bool
  defaultValue : ℚ
deriving DecidableEq

/-- Modelled from the spec: the options registry (not part of the given
sources; only the registering call in `RegisterOptions` is) rejects, at
initialization and before iterating, any configured value outside a
registered option's range.  For a lower-bounded number option the admissible
values are those above (strict) or at-or-above (non-strict) the registered
lower bound. -/
def acceptsValue (o : LowerBoundedNumberOption) (v : ℚ) : Bool :=
  if o.strict then decide (o.lb < v) else decide (o.lb ≤ v)

/-- The registration of the `dual_inf_tol` option
(`RegisterOptions`, IpOptErrorConvCheck.cpp lines 48-54): lower bound 0,
strict, default 1, no upper bound. -/
def dual_inf_tol_option : LowerBoundedNumberOption :=
  { lb := 0, strict := true, defaultValue := 1 }

/-- Repeated calls of `CheckConvergence`, each with its own environment
readings and callback flag, threading the member state; returns the list of
statuses and the final state. -/
def traceRun (st : CheckerState) : List (IpEnv × Bool) → List ConvergenceStatus × CheckerState
  | [] => ([], st)
  | (e, cb) :: rest =>
      let r := CheckConvergence st e cb
      let t := traceRun r.2 rest
      (r.1 :: t.1, t.2)

/-- One `CheckConvergence` call reaches the acceptable-test branch and the
acceptable test passes: the callback does not request a stop, the primary
test fails, the heuristic is enabled, and `CurrentIsAcceptable` returns
true. -/
def reachesAcceptAndPasses (st : CheckerState) (e : IpEnv) (cb : Bool) : Prop :=
  (cb && e.request_stop) = false
    ∧ ¬ primaryTest (relaxPrimaryTols st e) e
    ∧ 0 < st.acceptable_iter_
    ∧ (CurrentIsAcceptable (relaxPrimaryTols st e) e).1 = true

instance (st : CheckerState) (e : IpEnv) (cb : Bool) :
    Decidable (reachesAcceptAndPasses st e cb) := by
  unfold reachesAcceptAndPasses; infer_instance

/-- Along a whole trace of calls, every call reaches the acceptable-test
branch and passes the acceptable test. -/
def passesAcceptableTrace (st : CheckerState) : List (IpEnv × Bool) → Prop
  | [] => True
  | (e, cb) :: rest =>
      reachesAcceptAndPasses st e cb
        ∧ passesAcceptableTrace (CheckConvergence st e cb).2 rest

def passesAcceptableTraceDec (st : CheckerState) :
    (l : List (IpEnv × Bool)) → Decidable (passesAcceptableTrace st l)
  | [] => isTrue trivial
  | (e, cb) :: rest =>
      @instDecidableAnd _ _ inferInstance
        (passesAcceptableTraceDec (CheckConvergence st e cb).2 rest)

instance (st : CheckerState) (l : List (IpEnv × Bool)) :
    Decidable (passesAcceptableTrace st l) :=
  passesAcceptableTraceDec st l

/-!
Concrete instances used by witnesses and counterexamples.  `defaultState`
holds the default option values registered in `RegisterOptions`
(IpOptErrorConvCheck.cpp lines 31-138) together with the resets done by
`InitializeImpl`; `baseEnv` is a neutral set of collaborator readings.
-/

/-- The option values as fetched at their registered defaults. -/
def optsDefault : OptionValues :=
  { max_iter := 3000
    max_cpu_time := 10 ^ 6
    dual_inf_tol := 1
    constr_viol_tol := 1 / 10 ^ 4
    compl_inf_tol := 1 / 10 ^ 4
    acceptable_iter := 15
    acceptable_tol := 1 / 10 ^ 6
    acceptable_dual_inf_tol := 10 ^ 10
    acceptable_constr_viol_tol := 1 / 10 ^ 2
    acceptable_compl_inf_tol := 1 / 10 ^ 2
    acceptable_obj_change_tol := 10 ^ 20
    diverging_iterates_tol := 10 ^ 20
    mu_target := 0 }

/-- Checker state right after initialization at default option values. -/
def defaultState : CheckerState :=
  { max_iterations_ := 3000
    max_cpu_time_ := 10 ^ 6
    dual_inf_tol_ := 1
    constr_viol_tol_ := 1 / 10 ^ 4
    compl_inf_tol_ := 1 / 10 ^ 4
    acceptable_iter_ := 15
    acceptable_tol_ := 1 / 10 ^ 6
    acceptable_dual_inf_tol_ := 10 ^ 10
    acceptable_constr_viol_tol_ := 1 / 10 ^ 2
    acceptable_compl_inf_tol_ := 1 / 10 ^ 2
    acceptable_obj_change_tol_ := 10 ^ 20
    diverging_iterates_tol_ := 10 ^ 20
    mu_target_ := 0
    acceptable_counter_ := 0
    curr_obj_val_ := -(10 ^ 50)
    last_obj_val_ := 0
    last_obj_val_iter_ := -1 }

/-- Neutral collaborator readings: iteration 1, all error quantities 0,
primary tolerance 1e-8, one primal variable and no equality constraint
(not square), no direction computed yet, callback does not request a stop. -/
def baseEnv : IpEnv :=
  { iter_count := 1
    curr_nlp_error := 0
    unscaled_curr_dual_infeasibility := 0
    unscaled_curr_nlp_constraint_violation := 0
    unscaled_curr_complementarity := 0
    tol := 1 / 10 ^ 8
    curr_x := [0]
    y_c_Dim := 0
    curr_f := 0
    cpu_time_start := 0
    curr_cpu_time := 0
    delta := none
    request_stop := false }

/-- Readings where the primary test and the maximum-iteration condition hold
simultaneously while the callback requests a stop. -/
def envStop : IpEnv :=
  { baseEnv with request_stop := true, iter_count := 3000 }

/-- Readings where the primary test and the maximum-iteration condition hold
simultaneously and the callback does not request a stop. -/
def envMax : IpEnv :=
  { baseEnv with iter_count := 3000 }

/-- State whose stored objective values make the objective-change quantity
zero at iteration 1. -/
def stAcc : CheckerState :=
  { defaultState with curr_obj_val_ := 5, last_obj_val_ := 5, last_obj_val_iter_ := 1 }

/-- Readings whose overall error misses the primary tolerance but passes the
acceptable tolerance. -/
def envAcc : IpEnv :=
  { baseEnv with curr_nlp_error := 1 / 10 ^ 7 }

/-- Fifteen identical acceptable-passing calls. -/
def envsAcc : List (IpEnv × Bool) :=
  List.replicate 15 (envAcc, false)

/-- Neutral readings for a square problem (one primal variable, one equality
constraint). -/
def envSquareBase : IpEnv :=
  { baseEnv with y_c_Dim := 1 }

/-- Square-problem readings whose dual infeasibility exceeds 1e300. -/
def envC3big : IpEnv :=
  { envSquareBase with unscaled_curr_dual_infeasibility := 2 * 10 ^ 300 }

/-- Readings with elapsed CPU time 2e6 exceeding the default maximum 1e6,
and no other terminal condition. -/
def envCpu : IpEnv :=
  { baseEnv with curr_nlp_error := 1, curr_cpu_time := 2 * 10 ^ 6 }

/-- State with a CPU-time limit below the 999999 guard. -/
def stCpu : CheckerState :=
  { defaultState with max_cpu_time_ := 100 }

/-- Readings with elapsed CPU time 200 and no other terminal condition. -/
def envCpuW : IpEnv :=
  { baseEnv with curr_nlp_error := 1, curr_cpu_time := 200 }

/-- Readings satisfying the four primary comparisons of Scenario 1 while the
callback requests a stop. -/
def envScen1Stop : IpEnv :=
  { baseEnv with
      curr_nlp_error := 1 / 10 ^ 9
      unscaled_curr_dual_infeasibility := 1 / 10 ^ 9
      unscaled_curr_nlp_constraint_violation := 1 / 10 ^ 9
      unscaled_curr_complementarity := 1 / 10 ^ 9
      request_stop := true }

/-- Readings satisfying the four primary comparisons of Scenario 1. -/
def envScen1 : IpEnv :=
  { baseEnv with
      curr_nlp_error := 1 / 10 ^ 9
      unscaled_curr_dual_infeasibility := 1 / 10 ^ 9
      unscaled_curr_nlp_constraint_violation := 1 / 10 ^ 9
      unscaled_curr_complementarity := 1 / 10 ^ 9 }

/-- State with a configured dual-infeasibility tolerance of 1e310 (admissible
for the registered lower-bounded option). -/
def stHugeDualTol : CheckerState :=
  { defaultState with dual_inf_tol_ := 10 ^ 310 }

/-- Square-problem readings whose dual infeasibility 1e305 is within the
configured tolerance 1e310 but above the square-case relaxation 1e300. -/
def envHugeDual : IpEnv :=
  { envSquareBase with unscaled_curr_dual_infeasibility := 10 ^ 305 }

/-- Readings at the first acceptable-test evaluation after initialization:
iteration 0 and objective value 7. -/
def envFirstEval : IpEnv :=
  { baseEnv with curr_f := 7, iter_count := 0 }

/-!
Preservation lemmas: which member fields the helper functions leave
unchanged.
-/

@[simp] theorem relaxPrimaryTols_acceptable_iter (st : CheckerState) (env : IpEnv) :
    (relaxPrimaryTols st env).acceptable_iter_ = st.acceptable_iter_ := by
  unfold relaxPrimaryTols; split <;> rfl

@[simp] theorem relaxPrimaryTols_acceptable_counter (st : CheckerState) (env : IpEnv) :
    (relaxPrimaryTols st env).acceptable_counter_ = st.acceptable_counter_ := by
  unfold relaxPrimaryTols; split <;> rfl

@[simp] theorem relaxPrimaryTols_acceptable_tol (st : CheckerState) (env : IpEnv) :
    (relaxPrimaryTols st env).acceptable_tol_ = st.acceptable_tol_ := by
  unfold relaxPrimaryTols; split <;> rfl

@[simp] theorem relaxPrimaryTols_acceptable_dual_inf_tol (st : CheckerState) (env : IpEnv) :
    (relaxPrimaryTols st env).acceptable_dual_inf_tol_ = st.acceptable_dual_inf_tol_ := by
  unfold relaxPrimaryTols; split <;> rfl

@[simp] theorem relaxPrimaryTols_acceptable_constr_viol_tol (st : CheckerState) (env : IpEnv) :
    (relaxPrimaryTols st env).acceptable_constr_viol_tol_ = st.acceptable_constr_viol_tol_ := by
  unfold relaxPrimaryTols; split <;> rfl

@[simp] theorem relaxPrimaryTols_acceptable_compl_inf_tol (st : CheckerState) (env : IpEnv) :
    (relaxPrimaryTols st env).acceptable_compl_inf_tol_ = st.acceptable_compl_inf_tol_ := by
  unfold relaxPrimaryTols; split <;> rfl

@[simp] theorem relaxPrimaryTols_acceptable_obj_change_tol (st : CheckerState) (env : IpEnv) :
    (relaxPrimaryTols st env).acceptable_obj_change_tol_ = st.acceptable_obj_change_tol_ := by
  unfold relaxPrimaryTols; split <;> rfl

@[simp] theorem relaxPrimaryTols_diverging_iterates_tol (st : CheckerState) (env : IpEnv) :
    (relaxPrimaryTols st env).diverging_iterates_tol_ = st.diverging_iterates_tol_ := by
  unfold relaxPrimaryTols; split <;> rfl

@[simp] theorem relaxPrimaryTols_max_iterations (st : CheckerState) (env : IpEnv) :
    (relaxPrimaryTols st env).max_iterations_ = st.max_iterations_ := by
  unfold relaxPrimaryTols; split <;> rfl

@[simp] theorem relaxPrimaryTols_max_cpu_time (st : CheckerState) (env : IpEnv) :
    (relaxPrimaryTols st env).max_cpu_time_ = st.max_cpu_time_ := by
  unfold relaxPrimaryTols; split <;> rfl

@[simp] theorem relaxPrimaryTols_constr_viol_tol (st : CheckerState) (env : IpEnv) :
    (relaxPrimaryTols st env).constr_viol_tol_ = st.constr_viol_tol_ := by
  unfold relaxPrimaryTols; split <;> rfl

@[simp] theorem relaxPrimaryTols_curr_obj_val (st : CheckerState) (env : IpEnv) :
    (relaxPrimaryTols st env).curr_obj_val_ = st.curr_obj_val_ := by
  unfold relaxPrimaryTols; split <;> rfl

@[simp] theorem relaxPrimaryTols_last_obj_val (st : CheckerState) (env : IpEnv) :
    (relaxPrimaryTols st env).last_obj_val_ = st.last_obj_val_ := by
  unfold relaxPrimaryTols; split <;> rfl

@[simp] theorem relaxPrimaryTols_last_obj_val_iter (st : CheckerState) (env : IpEnv) :
    (relaxPrimaryTols st env).last_obj_val_iter_ = st.last_obj_val_iter_ := by
  unfold relaxPrimaryTols; split <;> rfl

@[simp] theorem updateObjVals_acceptable_iter (st : CheckerState) (env : IpEnv) :
    (updateObjVals st env).acceptable_iter_ = st.acceptable_iter_ := by
  unfold updateObjVals; split <;> rfl

@[simp] theorem updateObjVals_acceptable_counter (st : CheckerState) (env : IpEnv) :
    (updateObjVals st env).acceptable_counter_ = st.acceptable_counter_ := by
  unfold updateObjVals; split <;> rfl

@[simp] theorem updateObjVals_acceptable_tol (st : CheckerState) (env : IpEnv) :
    (updateObjVals st env).acceptable_tol_ = st.acceptable_tol_ := by
  unfold updateObjVals; split <;> rfl

@[simp] theorem updateObjVals_acceptable_dual_inf_tol (st : CheckerState) (env : IpEnv) :
    (updateObjVals st env).acceptable_dual_inf_tol_ = st.acceptable_dual_inf_tol_ := by
  unfold updateObjVals; split <;> rfl

@[simp] theorem updateObjVals_acceptable_constr_viol_tol (st : CheckerState) (env : IpEnv) :
    (updateObjVals st env).acceptable_constr_viol_tol_ = st.acceptable_constr_viol_tol_ := by
  unfold updateObjVals; split <;> rfl

@[simp] theorem updateObjVals_acceptable_compl_inf_tol (st : CheckerState) (env : IpEnv) :
    (updateObjVals st env).acceptable_compl_inf_tol_ = st.acceptable_compl_inf_tol_ := by
  unfold updateObjVals; split <;> rfl

@[simp] theorem updateObjVals_acceptable_obj_change_tol (st : CheckerState) (env : IpEnv) :
    (updateObjVals st env).acceptable_obj_change_tol_ = st.acceptable_obj_change_tol_ := by
  unfold updateObjVals; split <;> rfl

@[simp] theorem updateObjVals_diverging_iterates_tol (st : CheckerState) (env : IpEnv) :
    (updateObjVals st env).diverging_iterates_tol_ = st.diverging_iterates_tol_ := by
  unfold updateObjVals; split <;> rfl

@[simp] theorem updateObjVals_max_iterations (st : CheckerState) (env : IpEnv) :
    (updateObjVals st env).max_iterations_ = st.max_iterations_ := by
  unfold updateObjVals; split <;> rfl

@[simp] theorem updateObjVals_max_cpu_time (st : CheckerState) (env : IpEnv) :
    (updateObjVals st env).max_cpu_time_ = st.max_cpu_time_ := by
  unfold updateObjVals; split <;> rfl

@[simp] theorem relaxAcceptableTols_acceptable_iter (st : CheckerState) (env : IpEnv) :
    (relaxAcceptableTols st env).acceptable_iter_ = st.acceptable_iter_ := by
  unfold relaxAcceptableTols; split <;> rfl

@[simp] theorem relaxAcceptableTols_acceptable_counter (st : CheckerState) (env : IpEnv) :
    (relaxAcceptableTols st env).acceptable_counter_ = st.acceptable_counter_ := by
  unfold relaxAcceptableTols; split <;> rfl

@[simp] theorem relaxAcceptableTols_acceptable_tol (st : CheckerState) (env : IpEnv) :
    (relaxAcceptableTols st env).acceptable_tol_ = st.acceptable_tol_ := by
  unfold relaxAcceptableTols; split <;> rfl

@[simp] theorem relaxAcceptableTols_acceptable_constr_viol_tol (st : CheckerState) (env : IpEnv) :
    (relaxAcceptableTols st env).acceptable_constr_viol_tol_ = st.acceptable_constr_viol_tol_ := by
  unfold relaxAcceptableTols; split <;> rfl

@[simp] theorem relaxAcceptableTols_acceptable_obj_change_tol (st : CheckerState) (env : IpEnv) :
    (relaxAcceptableTols st env).acceptable_obj_change_tol_ = st.acceptable_obj_change_tol_ := by
  unfold relaxAcceptableTols; split <;> rfl

@[simp] theorem relaxAcceptableTols_diverging_iterates_tol (st : CheckerState) (env : IpEnv) :
    (relaxAcceptableTols st env).diverging_iterates_tol_ = st.diverging_iterates_tol_ := by
  unfold relaxAcceptableTols; split <;> rfl

@[simp] theorem relaxAcceptableTols_max_iterations (st : CheckerState) (env : IpEnv) :
    (relaxAcceptableTols st env).max_iterations_ = st.max_iterations_ := by
  unfold relaxAcceptableTols; split <;> rfl

@[simp] theorem relaxAcceptableTols_max_cpu_time (st : CheckerState) (env : IpEnv) :
    (relaxAcceptableTols st env).max_cpu_time_ = st.max_cpu_time_ := by
  unfold relaxAcceptableTols; split <;> rfl

@[simp] theorem relaxAcceptableTols_curr_obj_val (st : CheckerState) (env : IpEnv) :
    (relaxAcceptableTols st env).curr_obj_val_ = st.curr_obj_val_ := by
  unfold relaxAcceptableTols; split <;> rfl

@[simp] theorem relaxAcceptableTols_last_obj_val (st : CheckerState) (env : IpEnv) :
    (relaxAcceptableTols st env).last_obj_val_ = st.last_obj_val_ := by
  unfold relaxAcceptableTols; split <;> rfl

@[simp] theorem CurrentIsAcceptable_snd (st : CheckerState) (env : IpEnv) :
    (CurrentIsAcceptable st env).2 = relaxAcceptableTols (updateObjVals st env) env := rfl

@[simp] theorem acceptableStep_snd_acceptable_counter (st : CheckerState) (env : IpEnv) :
    (acceptableStep st env).2.acceptable_counter_ = st.acceptable_counter_ := by
  unfold acceptableStep; split <;> simp

@[simp] theorem acceptableStep_snd_acceptable_iter (st : CheckerState) (env : IpEnv) :
    (acceptableStep st env).2.acceptable_iter_ = st.acceptable_iter_ := by
  unfold acceptableStep; split <;> simp

@[simp] theorem acceptableStep_snd_diverging_iterates_tol (st : CheckerState) (env : IpEnv) :
    (acceptableStep st env).2.diverging_iterates_tol_ = st.diverging_iterates_tol_ := by
  unfold acceptableStep; split <;> simp

@[simp] theorem acceptableStep_snd_max_iterations (st : CheckerState) (env : IpEnv) :
    (acceptableStep st env).2.max_iterations_ = st.max_iterations_ := by
  unfold acceptableStep; split <;> simp

@[simp] theorem acceptableStep_snd_max_cpu_time (st : CheckerState) (env : IpEnv) :
    (acceptableStep st env).2.max_cpu_time_ = st.max_cpu_time_ := by
  unfold acceptableStep; split <;> simp

@[simp] theorem afterAcceptable_snd (st : CheckerState) (env : IpEnv) :
    (afterAcceptable st env).2 = st := by
  unfold afterAcceptable; split_ifs <;> rfl

theorem afterAcceptable_fst_cases (st : CheckerState) (env : IpEnv) :
    (afterAcceptable st env).1 = ConvergenceStatus.DIVERGING
      ∨ (afterAcceptable st env).1 = ConvergenceStatus.MAXITER_EXCEEDED
      ∨ (afterAcceptable st env).1 = ConvergenceStatus.CPUTIME_EXCEEDED
      ∨ (afterAcceptable st env).1 = ConvergenceStatus.CONTINUE := by
  unfold afterAcceptable; split_ifs <;> simp

/-!
Key behavioral lemmas for `CheckConvergence`.
-/

theorem checkConvergence_user_stop (st : CheckerState) (env : IpEnv)
    (h : env.request_stop = true) :
    CheckConvergence st env true = (ConvergenceStatus.USER_STOP, st) := by
  unfold CheckConvergence
  simp [h]

theorem checkConvergence_converged (st : CheckerState) (env : IpEnv) (cb : Bool)
    (hstop : (cb && env.request_stop) = false)
    (hconv : primaryTest (relaxPrimaryTols st env) env) :
    CheckConvergence st env cb = (ConvergenceStatus.CONVERGED, relaxPrimaryTols st env) := by
  unfold CheckConvergence
  simp [hstop, hconv]

theorem checkConvergence_acceptable_pass (st : CheckerState) (env : IpEnv) (cb : Bool)
    (h : reachesAcceptAndPasses st env cb) :
    ((CheckConvergence st env cb).1 = ConvergenceStatus.CONVERGED_TO_ACCEPTABLE_POINT
        ↔ st.acceptable_iter_ ≤ st.acceptable_counter_ + 1)
      ∧ (CheckConvergence st env cb).2.acceptable_counter_ = st.acceptable_counter_ + 1
      ∧ (CheckConvergence st env cb).2.acceptable_iter_ = st.acceptable_iter_ := by
  obtain ⟨h1, h2, h3, h4⟩ := h
  have har : acceptableStep (relaxPrimaryTols st env) env
      = CurrentIsAcceptable (relaxPrimaryTols st env) env := by
    unfold acceptableStep
    rw [if_pos]
    simpa using h3
  unfold CheckConvergence
  rw [h1]
  simp only [Bool.false_eq_true, if_false, if_neg h2, har, h4, if_true]
  by_cases hthr : st.acceptable_iter_ ≤ st.acceptable_counter_ + 1
  · have : (CurrentIsAcceptable (relaxPrimaryTols st env) env).2.acceptable_iter_
        ≤ (CurrentIsAcceptable (relaxPrimaryTols st env) env).2.acceptable_counter_ + 1 := by
      simpa using hthr
    rw [if_pos this]
    simp [hthr]
  · have : ¬ ((CurrentIsAcceptable (relaxPrimaryTols st env) env).2.acceptable_iter_
        ≤ (CurrentIsAcceptable (relaxPrimaryTols st env) env).2.acceptable_counter_ + 1) := by
      simpa using hthr
    rw [if_neg this]
    refine ⟨?_, by simp, by simp⟩
    constructor
    · intro hacc
      rcases afterAcceptable_fst_cases
          ({ (CurrentIsAcceptable (relaxPrimaryTols st env) env).2 with
              acceptable_counter_ :=
                (CurrentIsAcceptable (relaxPrimaryTols st env) env).2.acceptable_counter_ + 1 }) env
          with hc | hc | hc | hc <;> rw [hc] at hacc <;> exact absurd hacc (by simp)
    · intro hc
      exact absurd hc hthr

theorem checkConvergence_acceptable_fail (st : CheckerState) (env : IpEnv) (cb : Bool)
    (h1 : (cb && env.request_stop) = false)
    (h2 : ¬ primaryTest (relaxPrimaryTols st env) env)
    (h3 : (acceptableStep (relaxPrimaryTols st env) env).1 = false) :
    (CheckConvergence st env cb).2.acceptable_counter_ = 0 := by
  unfold CheckConvergence
  rw [h1]
  simp only [Bool.false_eq_true, if_false, if_neg h2, h3]
  simp

theorem checkConvergence_counter_cases (st : CheckerState) (env : IpEnv) (cb : Bool) :
    (CheckConvergence st env cb).2.acceptable_counter_ = 0
      ∨ (CheckConvergence st env cb).2.acceptable_counter_ = st.acceptable_counter_ + 1
      ∨ (CheckConvergence st env cb).2.acceptable_counter_ = st.acceptable_counter_ := by
  unfold CheckConvergence
  by_cases hstop : (cb && env.request_stop) = true
  · rw [if_pos hstop]
    right; right; rfl
  · rw [if_neg hstop]
    by_cases hconv : primaryTest (relaxPrimaryTols st env) env
    · rw [if_pos hconv]
      right; right; simp
    · rw [if_neg hconv]
      by_cases hacc : (acceptableStep (relaxPrimaryTols st env) env).1 = true
      · rw [if_pos hacc]
        right; left
        dsimp only
        split <;> simp
      · rw [if_neg hacc]
        left; simp

theorem afterAcceptable_fst_ne (st : CheckerState) (env : IpEnv) :
    (afterAcceptable st env).1 ≠ ConvergenceStatus.USER_STOP
      ∧ (afterAcceptable st env).1 ≠ ConvergenceStatus.CONVERGED
      ∧ (afterAcceptable st env).1 ≠ ConvergenceStatus.CONVERGED_TO_ACCEPTABLE_POINT := by
  unfold afterAcceptable; split_ifs <;> simp

theorem afterAcceptable_cputime (st : CheckerState) (env : IpEnv)
    (hdiv : Amax env.curr_x ≤ st.diverging_iterates_tol_)
    (hiter : env.iter_count < st.max_iterations_)
    (hguard : st.max_cpu_time_ < 999999)
    (htime : st.max_cpu_time_ < env.curr_cpu_time - env.cpu_time_start) :
    afterAcceptable st env = (ConvergenceStatus.CPUTIME_EXCEEDED, st) := by
  unfold afterAcceptable
  rw [if_neg (not_lt.mpr hdiv), if_neg (not_le.mpr hiter), if_pos ⟨hguard, htime⟩]

theorem objChangeQuantity_relaxAcceptableTols (st : CheckerState) (env : IpEnv) :
    objChangeQuantity (relaxAcceptableTols st env) = objChangeQuantity st := by
  unfold objChangeQuantity
  simp

theorem traceRun_pass_spec (envs : List (IpEnv × Bool)) : ∀ st : CheckerState,
    passesAcceptableTrace st envs →
      (traceRun st envs).2.acceptable_counter_
          = st.acceptable_counter_ + (envs.length : Int)
        ∧ (traceRun st envs).2.acceptable_iter_ = st.acceptable_iter_
        ∧ ∀ k : Nat, k < envs.length →
            ((traceRun st envs).1.getD k ConvergenceStatus.CONTINUE
                = ConvergenceStatus.CONVERGED_TO_ACCEPTABLE_POINT
              ↔ st.acceptable_iter_ ≤ st.acceptable_counter_ + ((k : Int) + 1)) := by
  induction envs with
  | nil =>
      intro st _
      refine ⟨by simp [traceRun], by simp [traceRun], ?_⟩
      intro k hk
      simp at hk
  | cons p rest ih =>
      obtain ⟨e, cb⟩ := p
      intro st h
      obtain ⟨hd, tl⟩ := h
      have step := checkConvergence_acceptable_pass st e cb hd
      have iht := ih (CheckConvergence st e cb).2 tl
      refine ⟨?_, ?_, ?_⟩
      · show (traceRun (CheckConvergence st e cb).2 rest).2.acceptable_counter_ = _
        rw [iht.1, step.2.1]
        simp only [List.length_cons]
        push_cast
        ring
      · show (traceRun (CheckConvergence st e cb).2 rest).2.acceptable_iter_ = _
        rw [iht.2.1, step.2.2]
      · intro k hk
        cases k with
        | zero =>
            show (CheckConvergence st e cb).1 = _ ↔ _
            rw [step.1]
            constructor <;> intro h0 <;> push_cast at h0 ⊢ <;> omega
        | succ k2 =>
            have hk2 : k2 < rest.length := by simpa using hk
            have h2 := iht.2.2 k2 hk2
            rw [step.2.1, step.2.2] at h2
            show (traceRun (CheckConvergence st e cb).2 rest).1.getD k2
                ConvergenceStatus.CONTINUE = _ ↔ _
            rw [h2]
            constructor <;> intro h0 <;> push_cast at h0 ⊢ <;> omega

/-!
Claim theorems.
-/

/-- C1 (amended): for every state in which the intermediate callback is
disabled or does not request a stop, and in which both the primary
convergence test (as performed by the code, i.e. on the square-adjusted
tolerances) and the maximum-iteration condition hold simultaneously,
`CheckConvergence` returns CONVERGED, not MAXITER_EXCEEDED. -/
theorem claim1_converged_over_maxiter (st : CheckerState) (env : IpEnv) (cb : Bool)
    (hstop : (cb && env.request_stop) = false)
    (hconv : primaryTest (relaxPrimaryTols st env) env)
    (_hmax : st.max_iterations_ ≤ env.iter_count) :
    (CheckConvergence st env cb).1 = ConvergenceStatus.CONVERGED := by
  rw [checkConvergence_converged st env cb hstop hconv]

/-- C1 counterexample: at `defaultState` and `envStop` both the primary
convergence test and the maximum-iteration condition hold, yet with the
callback enabled and requesting a stop `CheckConvergence` returns USER_STOP,
not CONVERGED. -/
theorem claim1_counterexample :
    primaryTest (relaxPrimaryTols defaultState envStop) envStop
      ∧ defaultState.max_iterations_ ≤ envStop.iter_count
      ∧ (CheckConvergence defaultState envStop true).1 = ConvergenceStatus.USER_STOP
      ∧ (CheckConvergence defaultState envStop true).1 ≠ ConvergenceStatus.CONVERGED := by
  refine ⟨?_, ?_, ?_, ?_⟩ <;> with_unfolding_all decide

/-- C1 witness: a concrete run where both conditions hold, no stop is
requested, and CONVERGED is returned. -/
theorem claim1_witness :
    (CheckConvergence defaultState envMax true).1 = ConvergenceStatus.CONVERGED :=
  claim1_converged_over_maxiter defaultState envMax true (by with_unfolding_all decide)
    (by with_unfolding_all decide) (by with_unfolding_all decide)

/-- C4 (amended): if no earlier terminal condition fires and the configured
maximum CPU time is below the hard-coded guard 999999, then elapsed CPU time
exceeding the configured maximum makes `CheckConvergence` return
CPUTIME_EXCEEDED.  (Without the guard hypothesis the claim is false: see the
counterexample, where the default maximum 1e6 disables the check.) -/
theorem claim4_cputime (st : CheckerState) (env : IpEnv) (cb : Bool)
    (hstop : (cb && env.request_stop) = false)
    (hconv : ¬ primaryTest (relaxPrimaryTols st env) env)
    (hacc : (acceptableStep (relaxPrimaryTols st env) env).1 = true →
      st.acceptable_counter_ + 1 < st.acceptable_iter_)
    (hdiv : Amax env.curr_x ≤ st.diverging_iterates_tol_)
    (hiter : env.iter_count < st.max_iterations_)
    (hguard : st.max_cpu_time_ < 999999)
    (htime : st.max_cpu_time_ < env.curr_cpu_time - env.cpu_time_start) :
    (CheckConvergence st env cb).1 = ConvergenceStatus.CPUTIME_EXCEEDED := by
  unfold CheckConvergence
  rw [hstop]
  simp only [Bool.false_eq_true, if_false, if_neg hconv]
  by_cases hb : (acceptableStep (relaxPrimaryTols st env) env).1 = true
  · rw [if_pos hb]
    split
    · next hthr =>
        exfalso
        have hlt := hacc hb
        simp only [acceptableStep_snd_acceptable_iter, acceptableStep_snd_acceptable_counter,
          relaxPrimaryTols_acceptable_iter, relaxPrimaryTols_acceptable_counter] at hthr
        omega
    · rw [afterAcceptable_cputime _ env (by simpa using hdiv) (by simpa using hiter)
        (by simpa using hguard) (by simpa using htime)]
  · rw [if_neg hb]
    rw [afterAcceptable_cputime _ env (by simpa using hdiv) (by simpa using hiter)
      (by simpa using hguard) (by simpa using htime)]

/-- C4 counterexample: with the default maximum CPU time 1e6 the elapsed
time 2e6 exceeds the configured maximum and no earlier terminal condition
fires, yet `CheckConvergence` returns CONTINUE because of the hard-coded
`max_cpu_time_ < 999999` guard. -/
theorem claim4_counterexample :
    defaultState.max_cpu_time_ < envCpu.curr_cpu_time - envCpu.cpu_time_start
      ∧ ¬ primaryTest (relaxPrimaryTols defaultState envCpu) envCpu
      ∧ (acceptableStep (relaxPrimaryTols defaultState envCpu) envCpu).1 = false
      ∧ Amax envCpu.curr_x ≤ defaultState.diverging_iterates_tol_
      ∧ envCpu.iter_count < defaultState.max_iterations_
      ∧ (CheckConvergence defaultState envCpu false).1 = ConvergenceStatus.CONTINUE := by
  refine ⟨?_, ?_, ?_, ?_, ?_, ?_⟩ <;> with_unfolding_all decide

/-- C4 witness: with a maximum CPU time of 100 seconds and elapsed time 200,
CPUTIME_EXCEEDED is returned. -/
theorem claim4_witness :
    (CheckConvergence stCpu envCpuW false).1 = ConvergenceStatus.CPUTIME_EXCEEDED :=
  claim4_cputime stCpu envCpuW false (by with_unfolding_all decide)
    (by with_unfolding_all decide) (fun _ => by with_unfolding_all decide)
    (by with_unfolding_all decide) (by with_unfolding_all decide)
    (by with_unfolding_all decide) (by with_unfolding_all decide)

/-- C5 (amended): whenever the intermediate callback does not request a stop,
the four quantities are within the stored primary tolerances, and in the
square case dual infeasibility and complementarity additionally do not exceed
the relaxation value 1e300, `CheckConvergence` returns CONVERGED.  The
specific tolerances named by the claim (dual_inf_tol = 1 etc.) satisfy the
extra hypotheses automatically. -/
theorem claim5_converged (st : CheckerState) (env : IpEnv) (cb : Bool)
    (hstop : (cb && env.request_stop) = false)
    (h1 : env.curr_nlp_error ≤ env.tol)
    (h2 : env.unscaled_curr_dual_infeasibility ≤ st.dual_inf_tol_)
    (h3 : env.unscaled_curr_nlp_constraint_violation ≤ st.constr_viol_tol_)
    (h4 : env.unscaled_curr_complementarity ≤ st.compl_inf_tol_)
    (hsq : isSquare env → env.unscaled_curr_dual_infeasibility ≤ 10 ^ 300
        ∧ env.unscaled_curr_complementarity ≤ 10 ^ 300) :
    (CheckConvergence st env cb).1 = ConvergenceStatus.CONVERGED := by
  have hconv : primaryTest (relaxPrimaryTols st env) env := by
    unfold relaxPrimaryTols
    by_cases hs : isSquare env
    · rw [if_pos hs]
      exact ⟨h1, (hsq hs).1, h3, (hsq hs).2⟩
    · rw [if_neg hs]
      exact ⟨h1, h2, h3, h4⟩
  rw [checkConvergence_converged st env cb hstop hconv]

/-- C5 counterexample: two concrete inputs satisfying the claim hypotheses
(all four quantities within the stored primary tolerances) on which
`CheckConvergence` does not return CONVERGED: one where the callback stop
preempts the test, and one square problem whose dual infeasibility 1e305 is
within the configured tolerance 1e310 but above the square-case relaxation
value 1e300. -/
theorem claim5_counterexample :
    (envScen1Stop.curr_nlp_error ≤ envScen1Stop.tol
        ∧ envScen1Stop.unscaled_curr_dual_infeasibility ≤ defaultState.dual_inf_tol_
        ∧ envScen1Stop.unscaled_curr_nlp_constraint_violation ≤ defaultState.constr_viol_tol_
        ∧ envScen1Stop.unscaled_curr_complementarity ≤ defaultState.compl_inf_tol_
        ∧ (CheckConvergence defaultState envScen1Stop true).1 = ConvergenceStatus.USER_STOP)
      ∧ (envHugeDual.curr_nlp_error ≤ envHugeDual.tol
        ∧ envHugeDual.unscaled_curr_dual_infeasibility ≤ stHugeDualTol.dual_inf_tol_
        ∧ envHugeDual.unscaled_curr_nlp_constraint_violation ≤ stHugeDualTol.constr_viol_tol_
        ∧ envHugeDual.unscaled_curr_complementarity ≤ stHugeDualTol.compl_inf_tol_
        ∧ (CheckConvergence stHugeDualTol envHugeDual false).1 = ConvergenceStatus.CONTINUE) := by
  constructor <;> refine ⟨?_, ?_, ?_, ?_, ?_⟩ <;> with_unfolding_all decide

/-- C5 witness: the Scenario-1 numbers (overall error 1e-9 against tol 1e-8,
dual infeasibility 1e-9 against 1, constraint violation and complementarity
1e-9 against 1e-4) yield CONVERGED. -/
theorem claim5_witness :
    (CheckConvergence defaultState envScen1 false).1 = ConvergenceStatus.CONVERGED :=
  claim5_converged defaultState envScen1 false (by with_unfolding_all decide)
    (by with_unfolding_all decide) (by with_unfolding_all decide)
    (by with_unfolding_all decide) (by with_unfolding_all decide)
    (fun _ => ⟨by with_unfolding_all decide, by with_unfolding_all decide⟩)

/-- C6 (amended): the `dual_inf_tol` option is registered with strict lower
bound 0, default 1 and no upper bound, so exactly the values in (0, ∞) are
accepted at initialization; values at or below 0 are rejected. -/
theorem claim6_dual_inf_tol_range :
    (∀ v : ℚ, acceptsValue dual_inf_tol_option v = true ↔ 0 < v)
      ∧ dual_inf_tol_option.defaultValue = 1 := by
  constructor
  · intro v
    unfold acceptsValue dual_inf_tol_option
    simp
  · rfl

/-- C6 counterexample: the value 2 lies outside (0, 1] yet is accepted by the
registered constraint of `dual_inf_tol`. -/
theorem claim6_counterexample :
    acceptsValue dual_inf_tol_option 2 = true ∧ ¬ ((2 : ℚ) ≤ 1) :=
  ⟨by with_unfolding_all decide, by with_unfolding_all decide⟩

/-- C6 witness: the value 1/2 is positive and accepted. -/
theorem claim6_witness :
    (0 < (1 / 2 : ℚ)) ∧ acceptsValue dual_inf_tol_option (1 / 2) = true :=
  ⟨by with_unfolding_all decide,
    (claim6_dual_inf_tol_range.1 (1 / 2)).mpr (by with_unfolding_all decide)⟩

/-- C7: for every state and readings, when `CheckConvergence` is called with
the intermediate callback enabled and the callback requests a stop, it
returns USER_STOP with the member state unchanged: no tolerance comparison
result and no counter, stored objective or tolerance field is affected. -/
theorem claim7_user_stop (st : CheckerState) (env : IpEnv)
    (h : env.request_stop = true) :
    CheckConvergence st env true = (ConvergenceStatus.USER_STOP, st) :=
  checkConvergence_user_stop st env h

/-- C7 witness: a concrete stop-requesting call returns USER_STOP and leaves
`defaultState` untouched. -/
theorem claim7_witness :
    CheckConvergence defaultState envStop true = (ConvergenceStatus.USER_STOP, defaultState) :=
  claim7_user_stop defaultState envStop (by with_unfolding_all decide)

/-- C8: when the stored direction or its x or s component is absent the
step-norm diagnostic is the sentinel 0 (and the computation is total, so the
query never fails); when all are present it is the maximum of the max-norms
of the x and s components. -/
theorem claim8_step_norm :
    dnrmOf none = 0
      ∧ (∀ d : DeltaPair, d.x = none ∨ d.s = none → dnrmOf (some d) = 0)
      ∧ (∀ vx vs : List ℚ,
          dnrmOf (some { x := some vx, s := some vs }) = max (Amax vx) (Amax vs)) := by
  refine ⟨rfl, ?_, fun vx vs => rfl⟩
  intro d hd
  obtain ⟨dx, ds⟩ := d
  cases dx <;> cases ds
  · rfl
  · rfl
  · rfl
  · exfalso
    rcases hd with h | h <;> exact Option.noConfusion h

/-- C8 witness: a missing x component gives 0; present components give the
maximum of the two max-norms. -/
theorem claim8_witness :
    dnrmOf (some { x := none, s := some [1] }) = 0
      ∧ dnrmOf (some { x := some [3, -4], s := some [2] }) = max (Amax [3, -4]) (Amax [2]) :=
  ⟨claim8_step_norm.2.1 { x := none, s := some [1] } (Or.inl rfl),
    claim8_step_norm.2.2 [3, -4] [2]⟩

/-- C9: with `call_intermediate_callback = false`, `CheckConvergence` never
returns USER_STOP, and its result does not depend on the callback-related
readings (the stop request and the stored direction): the callback is not
consulted. -/
theorem claim9_no_user_stop (st : CheckerState) (env : IpEnv) :
    (CheckConvergence st env false).1 ≠ ConvergenceStatus.USER_STOP
      ∧ ∀ (b : Bool) (d : Option DeltaPair),
          CheckConvergence st { env with request_stop := b, delta := d } false
            = CheckConvergence st env false := by
  constructor
  · unfold CheckConvergence
    simp only [Bool.false_and, Bool.false_eq_true, if_false]
    by_cases hconv : primaryTest (relaxPrimaryTols st env) env
    · rw [if_pos hconv]; simp
    · rw [if_neg hconv]
      by_cases hacc : (acceptableStep (relaxPrimaryTols st env) env).1 = true
      · rw [if_pos hacc]
        split
        · simp
        · exact (afterAcceptable_fst_ne _ env).1
      · rw [if_neg hacc]
        exact (afterAcceptable_fst_ne _ env).1
  · intro b d
    rfl

/-- C9 witness: at concrete inputs the result is not USER_STOP and is
unchanged when the stop request and stored direction are replaced. -/
theorem claim9_witness :
    (CheckConvergence defaultState baseEnv false).1 ≠ ConvergenceStatus.USER_STOP
      ∧ CheckConvergence defaultState
            { baseEnv with request_stop := true, delta := some { x := some [1], s := none } }
            false
          = CheckConvergence defaultState baseEnv false :=
  ⟨(claim9_no_user_stop defaultState baseEnv).1,
    (claim9_no_user_stop defaultState baseEnv).2 true (some { x := some [1], s := none })⟩

/-- C3 (amended): for every square state the dual-infeasibility and
complementarity tolerances of both tests are set to the finite value 1e300
(not infinity), and whenever those two quantities do not exceed 1e300 the
primary test depends only on overall error and constraint violation, and the
acceptable test only on overall error, constraint violation and the
objective-change condition. -/
theorem claim3_square_relaxation (st : CheckerState) (env : IpEnv) (hsq : isSquare env) :
    ((relaxPrimaryTols st env).dual_inf_tol_ = 10 ^ 300
      ∧ (relaxPrimaryTols st env).compl_inf_tol_ = 10 ^ 300
      ∧ (relaxAcceptableTols st env).acceptable_dual_inf_tol_ = 10 ^ 300
      ∧ (relaxAcceptableTols st env).acceptable_compl_inf_tol_ = 10 ^ 300)
    ∧ (env.unscaled_curr_dual_infeasibility ≤ 10 ^ 300 →
       env.unscaled_curr_complementarity ≤ 10 ^ 300 →
        ((primaryTest (relaxPrimaryTols st env) env
            ↔ env.curr_nlp_error ≤ env.tol
              ∧ env.unscaled_curr_nlp_constraint_violation ≤ st.constr_viol_tol_)
          ∧ ((CurrentIsAcceptable st env).1 = true
            ↔ env.curr_nlp_error ≤ st.acceptable_tol_
              ∧ env.unscaled_curr_nlp_constraint_violation ≤ st.acceptable_constr_viol_tol_
              ∧ objChangeQuantity (updateObjVals st env) ≤ st.acceptable_obj_change_tol_))) := by
  constructor
  · refine ⟨?_, ?_, ?_, ?_⟩ <;>
      simp [relaxPrimaryTols, relaxAcceptableTols, if_pos hsq]
  · intro hdual hcompl
    constructor
    · unfold primaryTest relaxPrimaryTols
      rw [if_pos hsq]
      constructor
      · rintro ⟨a, _, c, _⟩
        exact ⟨a, c⟩
      · rintro ⟨a, c⟩
        exact ⟨a, hdual, c, hcompl⟩
    · unfold CurrentIsAcceptable
      dsimp only
      rw [decide_eq_true_eq]
      unfold relaxAcceptableTols
      rw [if_pos hsq]
      constructor
      · rintro ⟨a, _, c, _, e⟩
        refine ⟨by simpa using a, by simpa using c, ?_⟩
        simpa [objChangeQuantity] using e
      · rintro ⟨a, c, e⟩
        refine ⟨by simpa using a, by simpa using hdual, by simpa using c,
          by simpa using hcompl, ?_⟩
        simpa [objChangeQuantity] using e

/-- C3 counterexample: for a square problem the test outcome still depends on
the dual infeasibility: two readings that differ only in the dual
infeasibility (0 versus 2e300) make `CheckConvergence` return CONVERGED and
CONTINUE respectively, so the quantity is not ignored. -/
theorem claim3_counterexample :
    isSquare envC3big
      ∧ envC3big = { envSquareBase with unscaled_curr_dual_infeasibility := 2 * 10 ^ 300 }
      ∧ (CheckConvergence defaultState envSquareBase false).1 = ConvergenceStatus.CONVERGED
      ∧ (CheckConvergence defaultState envC3big false).1 = ConvergenceStatus.CONTINUE := by
  refine ⟨by with_unfolding_all decide, rfl, ?_, ?_⟩ <;> with_unfolding_all decide

/-- C3 witness: at `defaultState` and the square readings `envSquareBase` the
primary dual-infeasibility tolerance is relaxed to 1e300 and the acceptable
test reduces to the three remaining conditions. -/
theorem claim3_witness :
    (relaxPrimaryTols defaultState envSquareBase).dual_inf_tol_ = 10 ^ 300
      ∧ ((CurrentIsAcceptable defaultState envSquareBase).1 = true
          ↔ envSquareBase.curr_nlp_error ≤ defaultState.acceptable_tol_
            ∧ envSquareBase.unscaled_curr_nlp_constraint_violation
                ≤ defaultState.acceptable_constr_viol_tol_
            ∧ objChangeQuantity (updateObjVals defaultState envSquareBase)
                ≤ defaultState.acceptable_obj_change_tol_) :=
  ⟨(claim3_square_relaxation defaultState envSquareBase (by with_unfolding_all decide)).1.1,
    ((claim3_square_relaxation defaultState envSquareBase (by with_unfolding_all decide)).2
      (by with_unfolding_all decide) (by with_unfolding_all decide)).2⟩

/-- C2: with acceptable_iter = 15 and the consecutive-acceptable counter at
zero, a trace of 15 calls, each reaching the acceptable branch with a passing
acceptable test, returns CONVERGED_TO_ACCEPTABLE_POINT on the 15th call and
on none of the earlier ones; a reached acceptable test that fails resets the
counter to exactly zero; and no call ever changes the counter other than to
zero, to its value plus one, or not at all. -/
theorem claim2_acceptable_counter :
    (∀ (st : CheckerState) (envs : List (IpEnv × Bool)),
      st.acceptable_iter_ = 15 → st.acceptable_counter_ = 0 →
      envs.length = 15 → passesAcceptableTrace st envs →
        (traceRun st envs).1.getD 14 ConvergenceStatus.CONTINUE
            = ConvergenceStatus.CONVERGED_TO_ACCEPTABLE_POINT
          ∧ ∀ k : Nat, k < 14 →
              (traceRun st envs).1.getD k ConvergenceStatus.CONTINUE
                ≠ ConvergenceStatus.CONVERGED_TO_ACCEPTABLE_POINT)
    ∧ (∀ (st : CheckerState) (env : IpEnv) (cb : Bool),
        (cb && env.request_stop) = false →
        ¬ primaryTest (relaxPrimaryTols st env) env →
        (acceptableStep (relaxPrimaryTols st env) env).1 = false →
        (CheckConvergence st env cb).2.acceptable_counter_ = 0)
    ∧ (∀ (st : CheckerState) (env : IpEnv) (cb : Bool),
        (CheckConvergence st env cb).2.acceptable_counter_ = 0
          ∨ (CheckConvergence st env cb).2.acceptable_counter_ = st.acceptable_counter_ + 1
          ∨ (CheckConvergence st env cb).2.acceptable_counter_ = st.acceptable_counter_) := by
  refine ⟨?_, checkConvergence_acceptable_fail, checkConvergence_counter_cases⟩
  intro st envs hai hc0 hlen htrace
  have spec := traceRun_pass_spec envs st htrace
  constructor
  · have h14 : (14 : Nat) < envs.length := by omega
    have hiff := spec.2.2 14 h14
    rw [hai, hc0] at hiff
    exact hiff.mpr (by norm_num)
  · intro k hk
    have hkl : k < envs.length := by omega
    have hiff := spec.2.2 k hkl
    rw [hai, hc0] at hiff
    intro hEq
    have h15 := hiff.mp hEq
    push_cast at h15
    omega

/-- C2 witness: a concrete state with acceptable_iter = 15 and counter 0, and
15 concrete calls each passing the acceptable test; the 15th call returns
CONVERGED_TO_ACCEPTABLE_POINT, and a failing call (overall error 1) resets
the counter from 3 to 0. -/
theorem claim2_witness :
    stAcc.acceptable_iter_ = 15 ∧ stAcc.acceptable_counter_ = 0
      ∧ envsAcc.length = 15 ∧ passesAcceptableTrace stAcc envsAcc
      ∧ (traceRun stAcc envsAcc).1.getD 14 ConvergenceStatus.CONTINUE
          = ConvergenceStatus.CONVERGED_TO_ACCEPTABLE_POINT
      ∧ (CheckConvergence { stAcc with acceptable_counter_ := 3 } envCpu false
          ).2.acceptable_counter_ = 0 := by
  refine ⟨by with_unfolding_all decide, by with_unfolding_all decide, by rfl,
    by with_unfolding_all decide, ?_, ?_⟩
  · exact (claim2_acceptable_counter.1 stAcc envsAcc (by with_unfolding_all decide)
      (by with_unfolding_all decide) (by rfl) (by with_unfolding_all decide)).1
  · exact claim2_acceptable_counter.2.1 { stAcc with acceptable_counter_ := 3 } envCpu false
      (by with_unfolding_all decide) (by with_unfolding_all decide)
      (by with_unfolding_all decide)

/-- C10: after initialization the stored current objective value is the
sentinel -1e50 and the stored objective-iteration index is -1, so at the
first acceptable-test evaluation (iteration index at least 0) the relative
objective-change quantity equals |f + 1e50| / max(1, |f|), and with
acceptable_obj_change_tol at most its default 1e20 the acceptable test fails
for every objective value of magnitude at most 1e29 (below about 1e30). -/
theorem claim10_first_acceptable_eval :
    (∀ (opts : OptionValues) (st : CheckerState),
        (InitializeImpl opts st).curr_obj_val_ = -(10 ^ 50)
          ∧ (InitializeImpl opts st).last_obj_val_iter_ = -1)
      ∧ (∀ (opts : OptionValues) (st : CheckerState) (env : IpEnv),
          0 ≤ env.iter_count →
          opts.acceptable_obj_change_tol ≤ 10 ^ 20 →
          |env.curr_f| ≤ 10 ^ 29 →
            objChangeQuantity (updateObjVals (InitializeImpl opts st) env)
                = |env.curr_f + 10 ^ 50| / max 1 |env.curr_f|
              ∧ (CurrentIsAcceptable (InitializeImpl opts st) env).1 = false) := by
  constructor
  · intro opts st
    exact ⟨rfl, rfl⟩
  · intro opts st env hiter htol hf
    have hne : env.iter_count ≠ (InitializeImpl opts st).last_obj_val_iter_ := by
      show env.iter_count ≠ -1
      omega
    have hupd : updateObjVals (InitializeImpl opts st) env
        = { InitializeImpl opts st with
            last_obj_val_ := -(10 ^ 50)
            curr_obj_val_ := env.curr_f
            last_obj_val_iter_ := env.iter_count } := by
      unfold updateObjVals
      rw [if_pos hne]
      rfl
    have hq : objChangeQuantity (updateObjVals (InitializeImpl opts st) env)
        = |env.curr_f + 10 ^ 50| / max 1 |env.curr_f| := by
      rw [hupd]
      unfold objChangeQuantity
      norm_num [sub_neg_eq_add]
    have hdenpos : (0 : ℚ) < max 1 |env.curr_f| :=
      lt_of_lt_of_le one_pos (le_max_left _ _)
    have hden : max 1 |env.curr_f| ≤ 10 ^ 29 := max_le (by norm_num) hf
    have h0 : env.curr_f + 10 ^ 50 + -env.curr_f = (10 : ℚ) ^ 50 := by ring
    have h1 : |(10 : ℚ) ^ 50| ≤ |env.curr_f + 10 ^ 50| + |env.curr_f| := by
      calc |(10 : ℚ) ^ 50| = |env.curr_f + 10 ^ 50 + -env.curr_f| := by rw [h0]
        _ ≤ |env.curr_f + 10 ^ 50| + |-env.curr_f| := abs_add _ _
        _ = |env.curr_f + 10 ^ 50| + |env.curr_f| := by rw [abs_neg]
    have h2 : |(10 : ℚ) ^ 50| = 10 ^ 50 := abs_of_nonneg (by positivity)
    have habs : (10 : ℚ) ^ 50 - 10 ^ 29 ≤ |env.curr_f + 10 ^ 50| := by
      rw [h2] at h1
      linarith
    have hgt : opts.acceptable_obj_change_tol
        < |env.curr_f + 10 ^ 50| / max 1 |env.curr_f| := by
      rcases le_or_lt 0 opts.acceptable_obj_change_tol with hnn | hneg
      · rw [lt_div_iff₀ hdenpos]
        have hmul : opts.acceptable_obj_change_tol * max 1 |env.curr_f|
            ≤ 10 ^ 20 * 10 ^ 29 :=
          mul_le_mul htol hden (le_of_lt hdenpos) (by norm_num)
        have hlt : (10 : ℚ) ^ 20 * 10 ^ 29 < 10 ^ 50 - 10 ^ 29 := by norm_num
        linarith
      · have hq0 : (0 : ℚ) ≤ |env.curr_f + 10 ^ 50| / max 1 |env.curr_f| :=
          div_nonneg (abs_nonneg _) (le_of_lt hdenpos)
        linarith
    refine ⟨hq, ?_⟩
    refine decide_eq_false ?_
    rintro ⟨-, -, -, -, hobj⟩
    rw [objChangeQuantity_relaxAcceptableTols] at hobj
    have htol2 : (relaxAcceptableTols (updateObjVals (InitializeImpl opts st) env)
        env).acceptable_obj_change_tol_ = opts.acceptable_obj_change_tol := by
      simp [InitializeImpl]
    rw [htol2, hq] at hobj
    exact absurd hobj (not_le.mpr hgt)

/-- C10 witness: at the default options, iteration 0 and objective value 7,
the objective-change quantity is |7 + 1e50| and the acceptable test fails. -/
theorem claim10_witness :
    (InitializeImpl optsDefault defaultState).curr_obj_val_ = -(10 ^ 50)
      ∧ objChangeQuantity (updateObjVals (InitializeImpl optsDefault defaultState) envFirstEval)
          = |envFirstEval.curr_f + 10 ^ 50| / max 1 |envFirstEval.curr_f|
      ∧ (CurrentIsAcceptable (InitializeImpl optsDefault defaultState) envFirstEval).1
          = false :=
  ⟨(claim10_first_acceptable_eval.1 optsDefault defaultState).1,
    (claim10_first_acceptable_eval.2 optsDefault defaultState envFirstEval
      (by with_unfolding_all decide) (by with_unfolding_all decide)
      (by with_unfolding_all decide)).1,
    (claim10_first_acceptable_eval.2 optsDefault defaultState envFirstEval
      (by with_unfolding_all decide) (by with_unfolding_all decide)
      (by with_unfolding_all decide)).2⟩
